import Mathlib

/-!
Verification of the gpcpp session/resource/state controller.

This file gives a shallow embedding of the core of the gpcpp library
(`include/gpcpp/gnuplot.hpp`, `include/gpcpp/gnuplot.i.hpp`,
`include/gpcpp/color.hpp` and, for the older generation of the API,
the corresponding unnamed implementation file) and proves properties of
the embedded operations.  C++ `double` values that only ever hold exact
small decimals in the verified scenarios are modelled as `Rat`;
machine `int` counters that only move upwards from `0`/`1` are modelled
as `Nat`/`Int`; side effects on the gnuplot pipe are modelled as an
explicit list of channel actions.
-/

namespace gpcpp

/-- The plotting styles of `plot_type_t` (defines.hpp). -/
inductive plot_type_t : Type
  | none
  | lines
  | points
  | lines_points
  | impulses
  | dots
  | steps
  | fsteps
  | histeps
  | boxes
  | filled_curves
  | histograms
deriving DecidableEq

/-- The smoothing styles of `smooth_type_t` (defines.hpp). -/
inductive smooth_type_t : Type
  | none
  | unique
  | frequency
  | csplines
  | acsplines
  | bezier
  | sbezier
deriving DecidableEq

/-- The error-bar styles of `erorrbar_type_t` (defines.hpp). -/
inductive erorrbar_type_t : Type
  | yerrorbars
  | xerrorbars
deriving DecidableEq

/-- The point styles of `point_type_t` (defines.hpp). -/
inductive point_type_t : Type
  | none
  | plus
  | cross
  | asterisk
  | open_square
  | filled_square
  | open_circle
  | filled_circle
  | open_triangle
  | filled_triangle
  | open_inverted_triangle
  | filled_inverted_triangle
  | open_diamond
  | filled_diamond
deriving DecidableEq

/-- The horizontal alignment options of `halign_t` (defines.hpp). -/
inductive halign_t : Type
  | left
  | center
  | right
deriving DecidableEq

/-- `is_line_type` (gnuplot.i.hpp): styles that draw connected lines. -/
def is_line_type (style : plot_type_t) : Bool :=
  style = plot_type_t.lines || style = plot_type_t.lines_points ||
  style = plot_type_t.steps || style = plot_type_t.fsteps ||
  style = plot_type_t.histeps || style = plot_type_t.filled_curves ||
  style = plot_type_t.impulses

/-- `is_point_type` (gnuplot.i.hpp): styles that draw point markers. -/
def is_point_type (style : plot_type_t) : Bool :=
  style = plot_type_t.points || style = plot_type_t.lines_points

/-- `plot_type_to_string` (defines.hpp); the `default` branch yields `"lines"`. -/
def plot_type_to_string (style : plot_type_t) : String :=
  match style with
  | plot_type_t.lines => "lines"
  | plot_type_t.points => "points"
  | plot_type_t.lines_points => "linespoints"
  | plot_type_t.impulses => "impulses"
  | plot_type_t.dots => "dots"
  | plot_type_t.steps => "steps"
  | plot_type_t.fsteps => "fsteps"
  | plot_type_t.histeps => "histeps"
  | plot_type_t.boxes => "boxes"
  | plot_type_t.filled_curves => "filledcurves"
  | plot_type_t.histograms => "histograms"
  | plot_type_t.none => "lines"

/-- `smooth_type_to_string` (defines.hpp); the `default` branch yields `""`. -/
def smooth_type_to_string (style : smooth_type_t) : String :=
  match style with
  | smooth_type_t.unique => "unique"
  | smooth_type_t.frequency => "frequency"
  | smooth_type_t.csplines => "csplines"
  | smooth_type_t.acsplines => "acsplines"
  | smooth_type_t.bezier => "bezier"
  | smooth_type_t.sbezier => "sbezier"
  | smooth_type_t.none => ""

/-- `errorbars_to_string` (defines.hpp). -/
def errorbars_to_string (style : erorrbar_type_t) : String :=
  match style with
  | erorrbar_type_t.yerrorbars => "yerrorbars"
  | erorrbar_type_t.xerrorbars => "xerrorbars"

/-- `point_type_to_string` (defines.hpp): decimal rendering of the enum ordinal. -/
def point_type_to_string (style : point_type_t) : String :=
  match style with
  | point_type_t.none => "0"
  | point_type_t.plus => "1"
  | point_type_t.cross => "2"
  | point_type_t.asterisk => "3"
  | point_type_t.open_square => "4"
  | point_type_t.filled_square => "5"
  | point_type_t.open_circle => "6"
  | point_type_t.filled_circle => "7"
  | point_type_t.open_triangle => "8"
  | point_type_t.filled_triangle => "9"
  | point_type_t.open_inverted_triangle => "10"
  | point_type_t.filled_inverted_triangle => "11"
  | point_type_t.open_diamond => "12"
  | point_type_t.filled_diamond => "13"

/-- Rendering of a C++ `double` by `operator<<` at default precision.
Every `double` printed in the verified scenarios holds an exact small
integer, which default iostream formatting prints without a decimal
point; non-integral rationals (never printed by any theorem below at a
concrete input) are rendered as `num/den`. -/
def fmtD (q : Rat) : String :=
  if q.den = 1 then toString q.num else toString q.num ++ "/" ++ toString q.den

/-- The tolerance literal `1e-6` used as default by `are_equal` (gnuplot.i.hpp). -/
def label_tol : Rat := 1 / 1000000

/-- `std::abs` on the rational model of `double`. -/
def ratAbs (q : Rat) : Rat := if q < 0 then -q else q

/-- `are_equal` (gnuplot.i.hpp): despite its name, returns whether the
difference between the two values EXCEEDS the tolerance. -/
def are_equal (a b tolerance : Rat) : Bool :=
  decide (tolerance < ratAbs (a - b))

/-- The `Color` record of color.hpp; components `-1,-1,-1` mean "unset". -/
structure Color : Type where
  r : Int
  g : Int
  b : Int
deriving DecidableEq

/-- `Color::Color()` — the unset sentinel. -/
def Color.unsetColor : Color := ⟨-1, -1, -1⟩

/-- `Color::is_set`. -/
def Color.is_set (c : Color) : Bool :=
  decide (c.r ≠ -1 ∧ c.g ≠ -1 ∧ c.b ≠ -1)

/-- `Color::set_from_rgb`: out-of-range components are replaced by `0`. -/
def Color.set_from_rgb (r g b : Int) : Color :=
  ⟨if 0 ≤ r ∧ r ≤ 255 then r else 0,
   if 0 ≤ g ∧ g ≤ 255 then g else 0,
   if 0 ≤ b ∧ b ≤ 255 then b else 0⟩

/-- `Color::set_from_name`: the predefined color-name table. -/
def Color.set_from_name (name : String) : Color :=
  if name = "red" then Color.set_from_rgb 255 0 0
  else if name = "green" then Color.set_from_rgb 0 255 0
  else if name = "blue" then Color.set_from_rgb 0 0 255
  else if name = "yellow" then Color.set_from_rgb 255 255 0
  else if name = "cyan" then Color.set_from_rgb 0 255 255
  else if name = "magenta" then Color.set_from_rgb 255 0 255
  else if name = "black" then Color.set_from_rgb 0 0 0
  else if name = "white" then Color.set_from_rgb 255 255 255
  else if name = "gray" then Color.set_from_rgb 128 128 128
  else ⟨-1, -1, -1⟩

/-- Value of a single hexadecimal digit character. -/
def hexDigitVal (c : Char) : Option Nat :=
  if '0' ≤ c ∧ c ≤ '9' then some (c.toNat - '0'.toNat)
  else if 'a' ≤ c ∧ c ≤ 'f' then some (c.toNat - 'a'.toNat + 10)
  else if 'A' ≤ c ∧ c ≤ 'F' then some (c.toNat - 'A'.toNat + 10)
  else none

/-- Value of a two-digit hexadecimal pair, as parsed by `std::stoi(_, _, 16)`. -/
def hexPair (c₁ c₂ : Char) : Option Nat :=
  match hexDigitVal c₁, hexDigitVal c₂ with
  | some h, some l => some (16 * h + l)
  | _, _ => none

/-- `Color::set_from_hex`: only strings of exactly seven characters starting
with `#` are parsed; otherwise the components are left as they were (the
source leaves them untouched). -/
def Color.set_from_hex (prev : Color) (hex : String) : Color :=
  match hex.data with
  | ['#', a, b, c, d, e, f] =>
    match hexPair a b, hexPair c d, hexPair e f with
    | some rv, some gv, some bv => ⟨rv, gv, bv⟩
    | _, _, _ => prev
  | _ => prev

/-- `Color::Color(const std::string&)`: hex strings are dispatched to
`set_from_hex`, anything else to `set_from_name`.  (On the malformed-hex
path the source leaves the components indeterminate; the model keeps the
unset sentinel there — no verified claim touches that path.) -/
def Color.ofString (s : String) : Color :=
  if s.data.head? = some '#' then Color.set_from_hex Color.unsetColor s
  else Color.set_from_name s

/-- One nibble as a lowercase hexadecimal character (`n < 16`). -/
def hexChar (n : Nat) : Char :=
  if n < 10 then Char.ofNat ('0'.toNat + n) else Char.ofNat ('a'.toNat + n - 10)

/-- `Color::format_hex`: `%02x` rendering of one in-range component. -/
def Color.format_hex (v : Int) : String :=
  let n := v.toNat % 256
  String.mk [hexChar (n / 16), hexChar (n % 16)]

/-- `Color::to_string`: lowercase `#rrggbb`, or `""` when unset. -/
def Color.to_string (c : Color) : String :=
  if c.is_set = false then ""
  else "#" ++ Color.format_hex c.r ++ Color.format_hex c.g ++ Color.format_hex c.b

/-- One observable interaction with the gnuplot pipe. -/
inductive Action : Type
  | write (line : String)
  | flush
deriving DecidableEq

/-- The mutable per-session state of class `Gnuplot` (gnuplot.hpp).
`pipe_open` models `gnuplot_pipe != nullptr`. -/
structure GnuplotState : Type where
  valid : Bool
  pipe_open : Bool
  two_dim : Bool
  nplots : Nat
  plot_type : plot_type_t
  smooth_type : smooth_type_t
  line_type : String
  line_color : Color
  point_type : point_type_t
  point_size : Rat
  line_width : Rat
  tmpfile_list : List String
deriving DecidableEq

/-- `Gnuplot::is_ready`: `valid && (gnuplot_pipe != nullptr)`. -/
def is_ready (g : GnuplotState) : Bool := g.valid && g.pipe_open

/-- The session state right after a successful constructor run
(gnuplot.i.hpp, end of `Gnuplot::Gnuplot`). -/
def freshSession : GnuplotState :=
  { valid := true
    pipe_open := true
    two_dim := false
    nplots := 0
    plot_type := plot_type_t.none
    smooth_type := smooth_type_t.none
    line_type := ""
    line_color := Color.unsetColor
    point_type := point_type_t.plus
    point_size := -1
    line_width := -1
    tmpfile_list := [] }

/-- `Gnuplot::send_cmd` of the current generation (gnuplot.i.hpp:160-191):
when ready it writes the newline-terminated command — WITHOUT flushing —
and updates `nplots`/`two_dim` from the command text: a command containing
`replot` anywhere changes nothing; otherwise a `splot`-prefixed command
selects 3D and a `plot`-prefixed command selects 2D, each bumping `nplots`. -/
def send_cmd (g : GnuplotState) (cmdstr : String) : GnuplotState × List Action :=
  if is_ready g = false then (g, [])
  else
    let g' :=
      if "replot".data <:+: cmdstr.data then g
      else if "splot".data.isPrefixOf cmdstr.data then
        { g with two_dim := false, nplots := g.nplots + 1 }
      else if "plot".data.isPrefixOf cmdstr.data then
        { g with two_dim := true, nplots := g.nplots + 1 }
      else g
    (g', [Action.write (cmdstr ++ "\n")])

/-- `Gnuplot::send_cmd` of the older generation (unnamed implementation
file, lines 138-166): identical, except that it flushes the pipe right
after the write. -/
def send_cmd_old (g : GnuplotState) (cmdstr : String) : GnuplotState × List Action :=
  if is_ready g = false then (g, [])
  else
    let g' :=
      if "replot".data <:+: cmdstr.data then g
      else if "splot".data.isPrefixOf cmdstr.data then
        { g with two_dim := false, nplots := g.nplots + 1 }
      else if "plot".data.isPrefixOf cmdstr.data then
        { g with two_dim := true, nplots := g.nplots + 1 }
      else g
    (g', [Action.write (cmdstr ++ "\n"), Action.flush])

/-- `Gnuplot::file_ready` (gnuplot.i.hpp:1905-1919), over the two facts the
`access`-based `file_exists` probes report: it returns `false` only when the
file exists but is not readable; a missing file yields `true`. -/
def file_ready (fexists freadable : Bool) : Bool :=
  if fexists then (if freadable then true else false) else true

/-- `Gnuplot::create_tmpfile` (gnuplot.i.hpp:1921-1981), over the global
live-file counter `m_tmpfile_num`, the session's `tmpfile_list`, the name
`mkstemp` would produce and whether the OS-level creation/open succeeds:
at the cap, or on OS failure, it returns no name and changes nothing;
otherwise it tracks the new file and bumps the counter. -/
def create_tmpfile (cap num : Nat) (lst : List String) (fname : String)
    (osOk : Bool) : Option String × Nat × List String :=
  if cap ≤ num then (none, num, lst)
  else if osOk then (some fname, num + 1, lst ++ [fname])
  else (none, num, lst)

/-- `Gnuplot::remove_tmpfiles` (gnuplot.i.hpp:2032-2052): deletes all
tracked files, decrements the global counter by the list length clamped
at zero, and clears the list. -/
def remove_tmpfiles (num : Nat) (lst : List String) : Nat × List String :=
  if lst.isEmpty then (num, lst)
  else if num < lst.length then (0, [])
  else (num - lst.length, [])

/-- The platform cap `m_tmpfile_max` on Unix-like systems. -/
def m_tmpfile_max_unix : Nat := 64

/-- The platform cap `m_tmpfile_max` on Windows. -/
def m_tmpfile_max_win : Nat := 27

/-- A session state together with the process-wide scratch-file state
(`m_tmpfile_max` and `m_tmpfile_num`). -/
structure Proc : Type where
  cap : Nat
  tmpnum : Nat
  gp : GnuplotState
deriving DecidableEq

/-- The OS-level outcomes a single plotting call can observe. -/
structure Env : Type where
  fname : String
  mkstempOk : Bool
  writeOk : Bool
  flushOk : Bool
  fexists : Bool
  freadable : Bool
deriving DecidableEq

/-- `create_tmpfile` acting on a `Proc`. -/
def create_tmpfileP (p : Proc) (env : Env) : Option String × Proc :=
  match create_tmpfile p.cap p.tmpnum p.gp.tmpfile_list env.fname env.mkstempOk with
  | (r, num', lst') =>
    (r, { p with tmpnum := num', gp := { p.gp with tmpfile_list := lst' } })

/-- `send_cmd` acting on a `Proc`. -/
def send_cmdP (p : Proc) (cmd : String) : Proc × List Action :=
  match send_cmd p.gp cmd with
  | (g', acts) => ({ p with gp := g' }, acts)

/-- The draw directive `Gnuplot::plot_xy` assembles (gnuplot.i.hpp:664-700). -/
def plot_xy_cmd (g : GnuplotState) (filename title : String) : String :=
  (if 0 < g.nplots ∧ g.two_dim then "replot" else "plot")
  ++ " \"" ++ filename ++ "\" using 1:2"
  ++ (if title = "" then " notitle" else " title \"" ++ title ++ "\"")
  ++ (if g.smooth_type = smooth_type_t.none then
        " with " ++ plot_type_to_string g.plot_type
      else " smooth " ++ smooth_type_to_string g.smooth_type)
  ++ (if g.line_color.is_set then
        " lc rgbcolor \"" ++ g.line_color.to_string ++ "\"" else "")
  ++ (if is_line_type g.plot_type then
        (if 0 < g.line_width then " lw " ++ fmtD g.line_width else "")
        ++ (if g.line_type = "" then "" else " " ++ g.line_type)
      else "")
  ++ (if is_point_type g.plot_type then
        " pt " ++ point_type_to_string g.point_type
        ++ (if 0 < g.point_size then " ps " ++ fmtD g.point_size else "")
      else "")

/-- `Gnuplot::plot_xy` (gnuplot.i.hpp:613-705): validation, scratch-file
creation, data write/flush, readability check, then directive send. -/
def plot_xy (p : Proc) (env : Env) (x y : List Rat) (title : String) :
    Proc × List Action :=
  if is_ready p.gp = false then (p, [])
  else if x.isEmpty || y.isEmpty then (p, [])
  else if x.length ≠ y.length then (p, [])
  else
    match create_tmpfileP p env with
    | (none, p') => (p', [])
    | (some filename, p') =>
      if env.writeOk = false then (p', [])
      else if env.flushOk = false then (p', [])
      else if file_ready env.fexists env.freadable = false then (p', [])
      else send_cmdP p' (plot_xy_cmd p'.gp filename title)

/-- The draw directive `Gnuplot::plot_xyz` assembles (gnuplot.i.hpp:850-893). -/
def plot_xyz_cmd (g : GnuplotState) (filename title : String) : String :=
  (if 0 < g.nplots ∧ g.two_dim = false then "replot" else "splot")
  ++ " \"" ++ filename ++ "\" using 1:2:3"
  ++ (if title = "" then " notitle" else " title \"" ++ title ++ "\"")
  ++ (if g.smooth_type = smooth_type_t.none then
        " with " ++ plot_type_to_string g.plot_type
      else " smooth " ++ smooth_type_to_string g.smooth_type)
  ++ (if g.line_color.is_set then
        " lc rgbcolor \"" ++ g.line_color.to_string ++ "\"" else "")
  ++ (if is_line_type g.plot_type then
        (if 0 < g.line_width then " lw " ++ fmtD g.line_width else "")
        ++ (if g.line_type = "" then "" else " " ++ g.line_type)
      else "")
  ++ (if is_point_type g.plot_type then
        " pt " ++ point_type_to_string g.point_type
        ++ (if 0 < g.point_size then " ps " ++ fmtD g.point_size else "")
      else "")

/-- `Gnuplot::plot_xyz` (gnuplot.i.hpp:798-899). -/
def plot_xyz (p : Proc) (env : Env) (x y z : List Rat) (title : String) :
    Proc × List Action :=
  if is_ready p.gp = false then (p, [])
  else if x.isEmpty || y.isEmpty || z.isEmpty then (p, [])
  else if x.length ≠ y.length ∨ x.length ≠ z.length then (p, [])
  else
    match create_tmpfileP p env with
    | (none, p') => (p', [])
    | (some filename, p') =>
      if env.writeOk = false then (p', [])
      else if env.flushOk = false then (p', [])
      else if file_ready env.fexists env.freadable = false then (p', [])
      else send_cmdP p' (plot_xyz_cmd p'.gp filename title)

/-- The draw directive `Gnuplot::plot_xy_erorrbar` assembles
(gnuplot.i.hpp:760-790). -/
def plot_xy_erorrbar_cmd (g : GnuplotState) (style : erorrbar_type_t)
    (filename title : String) : String :=
  (if 0 < g.nplots ∧ g.two_dim then "replot " else "plot ")
  ++ "\"" ++ filename ++ "\" using 1:2:3 with " ++ errorbars_to_string style ++ " "
  ++ (if title = "" then " notitle " else " title \"" ++ title ++ "\" ")
  ++ (if g.line_color.is_set then
        " lc rgbcolor \"" ++ g.line_color.to_string ++ "\"" else "")
  ++ (if 0 < g.line_width then " lw " ++ fmtD g.line_width else "")
  ++ (if g.line_type = "" then "" else " " ++ g.line_type)
  ++ " pt " ++ point_type_to_string g.point_type
  ++ (if 0 < g.point_size then " ps " ++ fmtD g.point_size else "")

/-- `Gnuplot::plot_xy_erorrbar` (gnuplot.i.hpp:707-796). -/
def plot_xy_erorrbar (p : Proc) (env : Env) (x y dy : List Rat)
    (style : erorrbar_type_t) (title : String) : Proc × List Action :=
  if is_ready p.gp = false then (p, [])
  else if x.isEmpty || y.isEmpty || dy.isEmpty then (p, [])
  else if x.length ≠ y.length ∨ x.length ≠ dy.length then (p, [])
  else
    match create_tmpfileP p env with
    | (none, p') => (p', [])
    | (some filename, p') =>
      if env.writeOk = false then (p', [])
      else if env.flushOk = false then (p', [])
      else if file_ready env.fexists env.freadable = false then (p', [])
      else send_cmdP p' (plot_xy_erorrbar_cmd p'.gp style filename title)

/-- `Gnuplot::set_plot_type`. -/
def set_plot_type (g : GnuplotState) (style : plot_type_t) : GnuplotState :=
  { g with plot_type := style }

/-- `Gnuplot::set_line_color(const std::string&)`. -/
def set_line_color (g : GnuplotState) (color : String) : GnuplotState :=
  { g with line_color := Color.ofString color }

/-- `Gnuplot::set_line_width`: non-positive widths are ignored. -/
def set_line_width (g : GnuplotState) (width : Rat) : GnuplotState :=
  if 0 < width then { g with line_width := width } else g

/-- The label directive `Gnuplot::add_label` assembles
(gnuplot.i.hpp:331-399); the box-style id is passed in (it is generated
before the label directive when a box is requested). -/
def add_label_cmd (x y : Rat) (label : String) (font_size : Rat)
    (color : String) (offset_x offset_y : Rat) (alignment : halign_t)
    (rotation : Rat) (point_flag : Bool) (box_show : Bool)
    (box_style_id : Int) : String :=
  "set label \"" ++ label ++ "\" at " ++ fmtD x ++ "," ++ fmtD y
  ++ (match alignment with
      | halign_t.left => " left"
      | halign_t.right => " right"
      | halign_t.center => " center")
  ++ (if are_equal rotation 0 label_tol = false then
        " rotate by " ++ fmtD rotation else "")
  ++ " font \", " ++ fmtD font_size ++ "\""
  ++ " textcolor rgb \"" ++ color ++ "\""
  ++ (if point_flag then " point" else " nopoint")
  ++ (if are_equal offset_x 0 label_tol = false ∨
         are_equal offset_y 0 label_tol = false then
        " offset " ++ fmtD offset_x ++ "," ++ fmtD offset_y else "")
  ++ (if box_show then " boxed bs " ++ toString box_style_id else "")

/-- The state of one `id_manager_t` instance together with the current
value of the function-local `static int id` counter of
`generate_unique_id` (gnuplot.hpp:1052-1060).  The counter is shared by
every manager in the process and is NOT reset by `clear()`. -/
structure IdState : Type where
  statId : Int
  used : Finset Int
deriving DecidableEq

/-- The process-start state: static counter at `1`, no used ids. -/
def initIdState : IdState := ⟨1, ∅⟩

/-- The `while (used_ids.find(id) != used_ids.end()) ++id;` loop of
`generate_unique_id`, with explicit fuel (the loop runs at most
`used.card` times). -/
def nextFreeAux : Nat → Finset Int → Int → Int
  | 0, _, id => id
  | fuel + 1, used, id =>
    if id ∈ used then nextFreeAux fuel used (id + 1) else id

/-- `id_manager_t::generate_unique_id`: advances the shared static counter
to the first value not used by THIS manager, marks it used, returns it. -/
def generate_unique_id (s : IdState) : Int × IdState :=
  let r := nextFreeAux (s.used.card + 1) s.used s.statId
  (r, ⟨r, insert r s.used⟩)

/-- `id_manager_t::is_used`. -/
def is_used (s : IdState) (id : Int) : Bool := decide (id ∈ s.used)

/-- `id_manager_t::add_id`: reserves a caller-chosen id, refusing duplicates. -/
def add_id (s : IdState) (id : Int) : Bool × IdState :=
  if id ∈ s.used then (false, s) else (true, ⟨s.statId, insert id s.used⟩)

/-- `id_manager_t::clear`: releases the reservations; the static counter
of `generate_unique_id` is untouched. -/
def clearIds (s : IdState) : IdState := ⟨s.statId, ∅⟩

/-- One operation on a single id manager. -/
inductive IdOp : Type
  | gen
  | add (k : Int)

/-- Run a sequence of id-manager operations, collecting the generated ids. -/
def runIds : List IdOp → IdState → IdState × List Int
  | [], s => (s, [])
  | IdOp.gen :: ops, s =>
    match generate_unique_id s with
    | (r, s') =>
      match runIds ops s' with
      | (s'', gens) => (s'', r :: gens)
  | IdOp.add k :: ops, s => runIds ops (add_id s k).2

/-- The process-wide scratch-file pool: the shared counter `m_tmpfile_num`
plus the `tmpfile_list` of each open session. -/
structure PoolState : Type where
  num : Nat
  sessions : List (List String)
deriving DecidableEq

/-- One pool operation: a `create_tmpfile` by a session, or a session's
`remove_tmpfiles` at teardown. -/
inductive PoolOp : Type
  | acquire (sid : Nat) (fname : String) (osOk : Bool)
  | release (sid : Nat)

/-- Effect of one pool operation on the process-wide state. -/
def poolStep (cap : Nat) (s : PoolState) : PoolOp → PoolState
  | PoolOp.acquire sid f ok =>
    match create_tmpfile cap s.num (s.sessions.getD sid []) f ok with
    | (_, num', lst') => ⟨num', s.sessions.set sid lst'⟩
  | PoolOp.release sid =>
    match remove_tmpfiles s.num (s.sessions.getD sid []) with
    | (num', _) => ⟨num', s.sessions.set sid []⟩

/-- Run a sequence of pool operations. -/
def runPool (cap : Nat) : List PoolOp → PoolState → PoolState
  | [], s => s
  | op :: ops, s => runPool cap ops (poolStep cap s op)

/-- A ready session right after a successful constructor run, with the
process-wide scratch-file state at its Unix start values. -/
def readyProc : Proc := ⟨m_tmpfile_max_unix, 0, freshSession⟩

/-- An OS environment in which every file operation succeeds. -/
def envAllOk (f : String) : Env := ⟨f, true, true, true, true, true⟩

/-- A session whose constructor failed (`valid == false`), as left behind by
an unsuccessful `open`. -/
def failedProc : Proc := ⟨m_tmpfile_max_unix, 0, { freshSession with valid := false }⟩

/-- The style state of the C2 scenario: line color "red", plot kind lines,
line width 2, applied to a fresh session through the fluent setters. -/
def c2_state : GnuplotState :=
  set_line_width (set_plot_type (set_line_color freshSession "red") plot_type_t.lines) 2

/-- C1: starting from a freshly opened session (`nplots = 0`), the first 2D
data call sends a directive carrying the fresh 2D verb `plot` and, having
been sent, advances the plot count to 1 and sets 2D mode; a second 2D data
call sends the continuation verb `replot` and changes neither the count nor
the mode; a following 3D data call sends the fresh 3D verb `splot` (not the
continuation verb), advancing the count and switching to 3D mode.
In general a sent directive containing the continuation verb never changes
`nplots` or the mode, and whenever `send_cmd` changes the state at all, the
session was ready and the command was a fresh `plot`/`splot` verb, with the
count advanced by one and the mode set to the verb's dimensionality. -/
theorem claim_C1_verb_selection :
    ((plot_xy readyProc (envAllOk "/tmp/gnuplotiA1") [0, 1] [0, 1] "a").2 =
        [Action.write "plot \"/tmp/gnuplotiA1\" using 1:2 title \"a\" with lines\n"] ∧
      (plot_xy readyProc (envAllOk "/tmp/gnuplotiA1") [0, 1] [0, 1] "a").1.gp.nplots = 1 ∧
      (plot_xy readyProc (envAllOk "/tmp/gnuplotiA1") [0, 1] [0, 1] "a").1.gp.two_dim = true ∧
      (plot_xy (plot_xy readyProc (envAllOk "/tmp/gnuplotiA1") [0, 1] [0, 1] "a").1
          (envAllOk "/tmp/gnuplotiA2") [0, 1] [1, 2] "b").2 =
        [Action.write "replot \"/tmp/gnuplotiA2\" using 1:2 title \"b\" with lines\n"] ∧
      (plot_xy (plot_xy readyProc (envAllOk "/tmp/gnuplotiA1") [0, 1] [0, 1] "a").1
          (envAllOk "/tmp/gnuplotiA2") [0, 1] [1, 2] "b").1.gp.nplots = 1 ∧
      (plot_xy (plot_xy readyProc (envAllOk "/tmp/gnuplotiA1") [0, 1] [0, 1] "a").1
          (envAllOk "/tmp/gnuplotiA2") [0, 1] [1, 2] "b").1.gp.two_dim = true ∧
      (plot_xyz (plot_xy (plot_xy readyProc (envAllOk "/tmp/gnuplotiA1") [0, 1] [0, 1] "a").1
            (envAllOk "/tmp/gnuplotiA2") [0, 1] [1, 2] "b").1
          (envAllOk "/tmp/gnuplotiA3") [0, 1] [1, 2] [2, 3] "c").2 =
        [Action.write "splot \"/tmp/gnuplotiA3\" using 1:2:3 title \"c\" with lines\n"] ∧
      (plot_xyz (plot_xy (plot_xy readyProc (envAllOk "/tmp/gnuplotiA1") [0, 1] [0, 1] "a").1
            (envAllOk "/tmp/gnuplotiA2") [0, 1] [1, 2] "b").1
          (envAllOk "/tmp/gnuplotiA3") [0, 1] [1, 2] [2, 3] "c").1.gp.nplots = 2 ∧
      (plot_xyz (plot_xy (plot_xy readyProc (envAllOk "/tmp/gnuplotiA1") [0, 1] [0, 1] "a").1
            (envAllOk "/tmp/gnuplotiA2") [0, 1] [1, 2] "b").1
          (envAllOk "/tmp/gnuplotiA3") [0, 1] [1, 2] [2, 3] "c").1.gp.two_dim = false) ∧
    (∀ (g : GnuplotState) (cmd : String), "replot".data <:+: cmd.data →
      (send_cmd g cmd).1 = g) ∧
    (∀ (g : GnuplotState) (cmd : String), (send_cmd g cmd).1 ≠ g →
      is_ready g = true ∧ ¬("replot".data <:+: cmd.data) ∧
      (send_cmd g cmd).1.nplots = g.nplots + 1 ∧
      (("splot".data <+: cmd.data ∧ (send_cmd g cmd).1.two_dim = false) ∨
       (¬("splot".data <+: cmd.data) ∧ "plot".data <+: cmd.data ∧
        (send_cmd g cmd).1.two_dim = true))) := by
  refine ⟨by decide, fun g cmd h => ?_, fun g cmd hne => ?_⟩
  · by_cases hr : is_ready g = false <;> simp [send_cmd, hr, h]
  · by_cases hr : is_ready g = false
    · simp [send_cmd, hr] at hne
    · by_cases hrep : "replot".data <:+: cmd.data
      · simp [send_cmd, hr, hrep] at hne
      · by_cases hsp : "splot".data <+: cmd.data
        · refine ⟨by simpa using hr, hrep, ?_, Or.inl ⟨hsp, ?_⟩⟩ <;>
            simp [send_cmd, List.isPrefixOf_iff_prefix, hr, hrep, hsp]
        · by_cases hp : "plot".data <+: cmd.data
          · refine ⟨by simpa using hr, hrep, ?_, Or.inr ⟨hsp, hp, ?_⟩⟩ <;>
              simp [send_cmd, List.isPrefixOf_iff_prefix, hr, hrep, hsp, hp]
          · simp [send_cmd, List.isPrefixOf_iff_prefix, hr, hrep, hsp, hp] at hne

/-- C1 witness: a continuation directive leaves a fresh session unchanged,
and a fresh `plot` directive on a fresh session advances the count to 1 in
2D mode. -/
theorem claim_C1_verb_selection_witness :
    (send_cmd freshSession "replot").1 = freshSession ∧
    (is_ready freshSession = true ∧ ¬("replot".data <:+: "plot \"F\"".data) ∧
      (send_cmd freshSession "plot \"F\"").1.nplots = freshSession.nplots + 1 ∧
      (("splot".data <+: "plot \"F\"".data ∧
          (send_cmd freshSession "plot \"F\"").1.two_dim = false) ∨
       (¬("splot".data <+: "plot \"F\"".data) ∧ "plot".data <+: "plot \"F\"".data ∧
          (send_cmd freshSession "plot \"F\"").1.two_dim = true))) :=
  ⟨claim_C1_verb_selection.2.1 freshSession "replot" (by decide),
   claim_C1_verb_selection.2.2 freshSession "plot \"F\"" (by decide)⟩

/-- C2: on a fresh session with line color "red", plot kind lines and line
width 2.0, `plot_xy` with x = [0,1,2], y = [0,1,4] and title "p" sends exactly
one directive, `plot "<scratchfile>" using 1:2 title "p" with lines
lc rgbcolor "#ff0000" lw 2`, with the clauses in exactly that order and the
color name "red" normalized to the lowercase hex string `#ff0000`. -/
theorem claim_C2_directive_assembly (fname : String) :
    (plot_xy ⟨m_tmpfile_max_unix, 0, c2_state⟩ (envAllOk fname) [0, 1, 2] [0, 1, 4] "p").2 =
      [Action.write ("plot \"" ++ fname ++
        "\" using 1:2 title \"p\" with lines lc rgbcolor \"#ff0000\" lw 2\n")] := by
  show [Action.write (plot_xy_cmd { c2_state with tmpfile_list := [fname] } fname "p" ++ "\n")] =
    [Action.write ("plot \"" ++ fname ++
      "\" using 1:2 title \"p\" with lines lc rgbcolor \"#ff0000\" lw 2\n")]
  refine congrArg (fun s => [Action.write s]) (String.ext ?_)
  simp only [plot_xy_cmd, String.data_append, List.append_assoc]
  rfl

/-- The counter after one `create_tmpfile` stays within a cap the old
counter respected. -/
lemma create_tmpfile_num_le (cap num : Nat) (lst : List String) (f : String) (ok : Bool)
    (h : num ≤ cap) : (create_tmpfile cap num lst f ok).2.1 ≤ cap := by
  by_cases hc : cap ≤ num
  · simp [create_tmpfile, hc, h]
  · by_cases hok : ok = true
    · simp [create_tmpfile, hc, hok]; omega
    · simp [create_tmpfile, hc, hok, h]

/-- The counter after `remove_tmpfiles` stays within a cap the old counter
respected. -/
lemma remove_tmpfiles_fst_le (cap num : Nat) (lst : List String) (h : num ≤ cap) :
    (remove_tmpfiles num lst).1 ≤ cap := by
  by_cases hE : lst.isEmpty = true
  · simp [remove_tmpfiles, hE, h]
  · by_cases hl : num < lst.length
    · simp [remove_tmpfiles, hE, hl]
    · simp [remove_tmpfiles, hE, hl]
      omega

/-- A single pool operation preserves the cap bound on the global counter. -/
lemma poolStep_num_le (cap : Nat) (s : PoolState) (op : PoolOp) (h : s.num ≤ cap) :
    (poolStep cap s op).num ≤ cap := by
  cases op with
  | acquire sid f ok => exact create_tmpfile_num_le cap s.num (s.sessions.getD sid []) f ok h
  | release sid => exact remove_tmpfiles_fst_le cap s.num (s.sessions.getD sid []) h

/-- Any sequence of pool operations preserves the cap bound. -/
lemma runPool_num_le (cap : Nat) (ops : List PoolOp) (s : PoolState) (h : s.num ≤ cap) :
    (runPool cap ops s).num ≤ cap := by
  induction ops generalizing s with
  | nil => exact h
  | cons op ops ih => exact ih _ (poolStep_num_le cap s op h)

/-- A run of acquires by one session grows the counter by exactly the number
of files the session now tracks. -/
lemma runAcquires (cap : Nat) (reqs : List (String × Bool)) :
    ∀ (num : Nat) (lst : List String),
      ∃ extra : List String,
        runPool cap (reqs.map fun r => PoolOp.acquire 0 r.1 r.2) ⟨num, [lst]⟩ =
          ⟨num + extra.length, [lst ++ extra]⟩ := by
  induction reqs with
  | nil => intro num lst; exact ⟨[], by simp [runPool]⟩
  | cons r rest ih =>
    intro num lst
    by_cases hc : cap ≤ num
    · obtain ⟨extra, hx⟩ := ih num lst
      exact ⟨extra, by simpa [runPool, poolStep, create_tmpfile, hc] using hx⟩
    · by_cases hok : r.2 = true
      · obtain ⟨extra, hx⟩ := ih (num + 1) (lst ++ [r.1])
        refine ⟨r.1 :: extra, ?_⟩
        simp only [runPool, poolStep, create_tmpfile, hc, hok, List.map_cons, List.getD,
          if_false, ite_true, ite_false]
        simp only [List.getD_cons_zero, List.set_cons_zero] at hx ⊢
        simp [hx]
        omega
      · obtain ⟨extra, hx⟩ := ih num lst
        exact ⟨extra, by simpa [runPool, poolStep, create_tmpfile, hc, hok] using hx⟩

/-- C3: across every sequence of acquire/release operations the global
live-scratch-file counter never exceeds the platform cap; an acquire
attempted at the cap fails immediately, returning no name and changing no
state; and after a session whose tracked list started empty releases all its
scratch files, the global counter is back at its pre-acquisition value. -/
theorem claim_C3_scratch_cap :
    (∀ (cap : Nat) (ops : List PoolOp) (s : PoolState), s.num ≤ cap →
      (runPool cap ops s).num ≤ cap) ∧
    (∀ (cap num : Nat) (lst : List String) (f : String) (ok : Bool), cap ≤ num →
      create_tmpfile cap num lst f ok = (none, num, lst)) ∧
    (∀ (cap c0 : Nat) (reqs : List (String × Bool)),
      (runPool cap [PoolOp.release 0]
        (runPool cap (reqs.map fun r => PoolOp.acquire 0 r.1 r.2) ⟨c0, [[]]⟩)).num = c0) := by
  refine ⟨fun cap ops s h => runPool_num_le cap ops s h,
    fun cap num lst f ok h => by simp [create_tmpfile, h],
    fun cap c0 reqs => ?_⟩
  obtain ⟨extra, hx⟩ := runAcquires cap reqs c0 []
  rw [hx]
  by_cases hE : extra = []
  · simp [runPool, poolStep, remove_tmpfiles, List.isEmpty_iff, hE]
  · have hlt : ¬ (c0 + extra.length < extra.length) := by omega
    simp [runPool, poolStep, remove_tmpfiles, List.isEmpty_iff, hE, hlt]

/-- C3 witness: a single acquire under the Unix cap keeps the counter within
the cap, and an acquire at the Windows cap fails without changing state. -/
theorem claim_C3_scratch_cap_witness :
    (runPool m_tmpfile_max_unix [PoolOp.acquire 0 "f" true] ⟨0, [[]]⟩).num ≤
      m_tmpfile_max_unix ∧
    create_tmpfile m_tmpfile_max_win m_tmpfile_max_win [] "f" true =
      (none, m_tmpfile_max_win, []) :=
  ⟨claim_C3_scratch_cap.1 m_tmpfile_max_unix [PoolOp.acquire 0 "f" true] ⟨0, [[]]⟩ (by decide),
   claim_C3_scratch_cap.2.1 m_tmpfile_max_win m_tmpfile_max_win [] "f" true (by decide)⟩

/-- C4: on a ready session, a paired or triple data call whose series have
mismatched lengths, or an empty series, sends zero directives, creates no
scratch file and leaves all session state unchanged. -/
theorem claim_C4_validation_atomicity (p : Proc) (env : Env) (x y z : List Rat)
    (style : erorrbar_type_t) (title : String)
    (hready : is_ready p.gp = true) :
    ((x.length ≠ y.length ∨ x = [] ∨ y = []) →
      plot_xy p env x y title = (p, [])) ∧
    ((x.length ≠ y.length ∨ x.length ≠ z.length ∨ x = [] ∨ y = [] ∨ z = []) →
      plot_xyz p env x y z title = (p, [])) ∧
    ((x.length ≠ y.length ∨ x.length ≠ z.length ∨ x = [] ∨ y = [] ∨ z = []) →
      plot_xy_erorrbar p env x y z style title = (p, [])) := by
  refine ⟨fun h => ?_, fun h => ?_, fun h => ?_⟩
  · rcases h with h | h | h
    · by_cases hx : (x.isEmpty || y.isEmpty) = true
      · simp [plot_xy, hready, hx]
      · simp [plot_xy, hready, hx, h]
    · simp [plot_xy, hready, h]
    · simp [plot_xy, hready, h]
  · rcases h with h | h | h | h | h
    · by_cases hx : (x.isEmpty || y.isEmpty || z.isEmpty) = true
      · simp [plot_xyz, hready, hx]
      · simp [plot_xyz, hready, hx, h]
    · by_cases hx : (x.isEmpty || y.isEmpty || z.isEmpty) = true
      · simp [plot_xyz, hready, hx]
      · simp [plot_xyz, hready, hx, h]
    · simp [plot_xyz, hready, h]
    · simp [plot_xyz, hready, h]
    · simp [plot_xyz, hready, h]
  · rcases h with h | h | h | h | h
    · by_cases hx : (x.isEmpty || y.isEmpty || z.isEmpty) = true
      · simp [plot_xy_erorrbar, hready, hx]
      · simp [plot_xy_erorrbar, hready, hx, h]
    · by_cases hx : (x.isEmpty || y.isEmpty || z.isEmpty) = true
      · simp [plot_xy_erorrbar, hready, hx]
      · simp [plot_xy_erorrbar, hready, hx, h]
    · simp [plot_xy_erorrbar, hready, h]
    · simp [plot_xy_erorrbar, hready, h]
    · simp [plot_xy_erorrbar, hready, h]

/-- C4 witness: a ready session with x = [0,1] and y = [0] (mismatched
lengths) sends nothing and keeps its state. -/
theorem claim_C4_validation_atomicity_witness :
    plot_xy readyProc (envAllOk "F") [0, 1] [0] "t" = (readyProc, []) ∧
    plot_xyz readyProc (envAllOk "F") [0, 1] [0, 1] [0] "t" = (readyProc, []) :=
  ⟨(claim_C4_validation_atomicity readyProc (envAllOk "F") [0, 1] [0] []
      erorrbar_type_t.yerrorbars "t" (by decide)).1 (by decide),
   (claim_C4_validation_atomicity readyProc (envAllOk "F") [0, 1] [0, 1] [0]
      erorrbar_type_t.yerrorbars "t" (by decide)).2.1 (by decide)⟩

/-- C5: the claim says every sent directive is followed by an immediate
flush of the pipe.  The current-generation `send_cmd` never emits a flush —
its action trace for any command is just the newline-terminated write —
while the older generation's `send_cmd` does flush right after every write.
This contradicts the documented channel contract and the older generation;
the missing `fflush` is a code bug. -/
theorem claim_C5_flush_divergence :
    (∀ (g : GnuplotState) (cmd : String), Action.flush ∉ (send_cmd g cmd).2) ∧
    (∀ (g : GnuplotState) (cmd : String), is_ready g = true →
      (send_cmd_old g cmd).2 = [Action.write (cmd ++ "\n"), Action.flush]) ∧
    (send_cmd freshSession "set title \"t\"").2 = [Action.write "set title \"t\"\n"] := by
  refine ⟨fun g cmd => ?_, fun g cmd h => ?_, by decide⟩
  · simp only [send_cmd]
    split <;> simp
  · simp [send_cmd_old, h]

/-- C5 witness: the old generation flushes after writing `set title "t"` on a
fresh ready session. -/
theorem claim_C5_flush_divergence_witness :
    (send_cmd_old freshSession "set title \"t\"").2 =
      [Action.write "set title \"t\"\n", Action.flush] :=
  claim_C5_flush_divergence.2.1 freshSession "set title \"t\"" (by decide)

/-- C8: when the session failed to open (`is_ready` false), `send_cmd` and
every modelled plotting call perform no channel interaction and return the
object unchanged. -/
theorem claim_C8_not_ready_noop (p : Proc) (env : Env) (x y z : List Rat)
    (style : erorrbar_type_t) (title cmd : String)
    (h : is_ready p.gp = false) :
    send_cmdP p cmd = (p, []) ∧
    plot_xy p env x y title = (p, []) ∧
    plot_xyz p env x y z title = (p, []) ∧
    plot_xy_erorrbar p env x y z style title = (p, []) := by
  refine ⟨?_, ?_, ?_, ?_⟩ <;>
    simp [send_cmdP, send_cmd, plot_xy, plot_xyz, plot_xy_erorrbar, h]

/-- C8 witness: on a session whose constructor failed, `send_cmd` and
`plot_xy` are no-ops. -/
theorem claim_C8_not_ready_noop_witness :
    send_cmdP failedProc "plot x" = (failedProc, []) ∧
    plot_xy failedProc (envAllOk "F") [0] [1] "t" = (failedProc, []) :=
  ⟨(claim_C8_not_ready_noop failedProc (envAllOk "F") [0] [1] []
      erorrbar_type_t.yerrorbars "t" "plot x" (by decide)).1,
   (claim_C8_not_ready_noop failedProc (envAllOk "F") [0] [1] []
      erorrbar_type_t.yerrorbars "t" "plot x" (by decide)).2.1⟩

/-- C9: `file_ready` returns true whenever the file does not exist, and
false exactly when the file exists without read permission; consequently a
plotting call whose scratch file has vanished between write and check still
assembles and sends its draw directive. -/
theorem claim_C9_file_ready_missing :
    (∀ r : Bool, file_ready false r = true) ∧
    (∀ e r : Bool, file_ready e r = false ↔ (e = true ∧ r = false)) ∧
    (plot_xy readyProc ⟨"/tmp/gnuplotiAAAAAA", true, true, true, false, true⟩
        [0, 1] [2, 3] "t").2 =
      [Action.write "plot \"/tmp/gnuplotiAAAAAA\" using 1:2 title \"t\" with lines\n"] :=
  ⟨by decide, by decide, by decide⟩

/-- The while loop of `generate_unique_id` lands on the first free id at or
above its starting point, given enough fuel. -/
lemma nextFreeAux_spec : ∀ (fuel : Nat) (used : Finset Int) (id : Int),
    (used.filter (fun x => id ≤ x)).card < fuel →
    nextFreeAux fuel used id ∉ used ∧ id ≤ nextFreeAux fuel used id ∧
      ∀ j : Int, id ≤ j → j < nextFreeAux fuel used id → j ∈ used := by
  intro fuel
  induction fuel with
  | zero => intro used id h; exact absurd h (Nat.not_lt_zero _)
  | succ n ih =>
    intro used id h
    by_cases hm : id ∈ used
    · have hsub : used.filter (fun x => id + 1 ≤ x) ⊂ used.filter (fun x => id ≤ x) := by
        constructor
        · intro x hx
          rcases Finset.mem_filter.mp hx with ⟨hx1, hx2⟩
          exact Finset.mem_filter.mpr ⟨hx1, by omega⟩
        · intro hcon
          have hid : id ∈ used.filter (fun x => id ≤ x) :=
            Finset.mem_filter.mpr ⟨hm, le_refl id⟩
          have := (Finset.mem_filter.mp (hcon hid)).2
          omega
      have hcard : (used.filter (fun x => id + 1 ≤ x)).card < n :=
        Nat.lt_of_lt_of_le (Finset.card_lt_card hsub) (Nat.lt_succ_iff.mp h)
      obtain ⟨h1, h2, h3⟩ := ih used (id + 1) hcard
      have hunf : nextFreeAux (n + 1) used id = nextFreeAux n used (id + 1) := by
        rw [nextFreeAux, if_pos hm]
      rw [hunf]
      refine ⟨h1, by omega, fun j hj1 hj2 => ?_⟩
      by_cases hje : j = id
      · exact hje ▸ hm
      · exact h3 j (by omega) hj2
    · have hunf : nextFreeAux (n + 1) used id = id := by
        rw [nextFreeAux, if_neg hm]
      rw [hunf]
      exact ⟨hm, le_refl id, fun j h1 h2 => absurd (h1.trans_lt h2) (lt_irrefl id)⟩

lemma generate_spec (s : IdState) :
    (generate_unique_id s).1 ∉ s.used ∧ s.statId ≤ (generate_unique_id s).1 ∧
    (∀ j : Int, s.statId ≤ j → j < (generate_unique_id s).1 → j ∈ s.used) ∧
    (generate_unique_id s).2.statId = (generate_unique_id s).1 ∧
    (generate_unique_id s).2.used = insert (generate_unique_id s).1 s.used := by
  have h := nextFreeAux_spec (s.used.card + 1) s.used s.statId
    (Nat.lt_succ_of_le (Finset.card_filter_le _ _))
  exact ⟨h.1, h.2.1, h.2.2, rfl, rfl⟩

lemma runIds_gen (rest : List IdOp) (s : IdState) :
    runIds (IdOp.gen :: rest) s =
      ((runIds rest (generate_unique_id s).2).1,
        (generate_unique_id s).1 :: (runIds rest (generate_unique_id s).2).2) := rfl

lemma runIds_add (k : Int) (rest : List IdOp) (s : IdState) :
    runIds (IdOp.add k :: rest) s = runIds rest (add_id s k).2 := rfl

lemma runIds_spec : ∀ (ops : List IdOp) (s : IdState),
    ((runIds ops s).2.Nodup) ∧ (∀ v ∈ (runIds ops s).2, v ∉ s.used) ∧
    (1 ≤ s.statId → ∀ v ∈ (runIds ops s).2, 0 < v) := by
  intro ops
  induction ops with
  | nil => intro s; simp [runIds]
  | cons op rest ih =>
    intro s
    cases op with
    | gen =>
      obtain ⟨hg1, hg2, _hg3, hg4, hg5⟩ := generate_spec s
      obtain ⟨ih1, ih2, ih3⟩ := ih (generate_unique_id s).2
      rw [runIds_gen]
      refine ⟨?_, ?_, ?_⟩
      · refine List.nodup_cons.mpr ⟨fun hmem => ?_, ih1⟩
        have := ih2 _ hmem
        rw [hg5] at this
        exact this (Finset.mem_insert_self _ _)
      · intro v hv
        rcases List.mem_cons.mp hv with rfl | hv'
        · exact hg1
        · intro hin
          exact (ih2 v hv') (hg5 ▸ Finset.mem_insert_of_mem hin)
      · intro hst v hv
        rcases List.mem_cons.mp hv with rfl | hv'
        · omega
        · exact ih3 (by rw [hg4]; omega) v hv'
    | add k =>
      rw [runIds_add]
      by_cases hk : k ∈ s.used
      · have hs : (add_id s k).2 = s := by simp [add_id, hk]
        rw [hs]
        exact ih s
      · have hs : (add_id s k).2 = ⟨s.statId, insert k s.used⟩ := by simp [add_id, hk]
        rw [hs]
        obtain ⟨ih1, ih2, ih3⟩ := ih ⟨s.statId, insert k s.used⟩
        exact ⟨ih1, fun v hv hin => (ih2 v hv) (Finset.mem_insert_of_mem hin), ih3⟩

/-- C7: across any sequence of generate/add operations on one id manager,
the generated ids are pairwise distinct and positive (the shared static
counter starts at 1), none of them collides with an id already reserved at
the start, and a generate occurring after an `add_id k` in the same run
never returns `k`. -/
theorem claim_C7_id_uniqueness :
    (∀ (ops : List IdOp) (s0 : IdState), 1 ≤ s0.statId →
      ((runIds ops s0).2.Nodup ∧ (∀ v ∈ (runIds ops s0).2, 0 < v) ∧
        (∀ v ∈ (runIds ops s0).2, v ∉ s0.used))) ∧
    (∀ (k : Int) (post : List IdOp) (s1 : IdState) (v : Int),
      v ∈ (runIds (IdOp.add k :: post) s1).2 → v ≠ k) := by
  constructor
  · intro ops s0 hst
    obtain ⟨h1, h2, h3⟩ := runIds_spec ops s0
    exact ⟨h1, h3 hst, h2⟩
  · intro k post s1 v hv
    rw [runIds_add] at hv
    have h2 := (runIds_spec post (add_id s1 k).2).2.1 v hv
    intro hvk
    apply h2
    by_cases hk : k ∈ s1.used
    · simp [add_id, hk, hvk]
    · simp [add_id, hk, hvk]

/-- C7 witness: the run generate, add 5, generate from the process-start
state yields distinct ids, and a generate after `add_id 7` returns 1, not 7. -/
theorem claim_C7_id_uniqueness_witness :
    (runIds [IdOp.gen, IdOp.add 5, IdOp.gen] initIdState).2.Nodup ∧
    (1 : Int) ≠ 7 :=
  ⟨((claim_C7_id_uniqueness.1 [IdOp.gen, IdOp.add 5, IdOp.gen] initIdState (by decide)).1),
   claim_C7_id_uniqueness.2 7 [IdOp.gen] initIdState 1 (by decide)⟩

/-- C6 counterexample: after generate, generate, clear, the manager's used
set is empty, so the smallest positive unused id is 1 — yet
`generate_unique_id` returns 2, because the function-local static counter
survives `clear()`.  The claim "generate returns the smallest positive
integer not currently marked used ... still after clear()" is false here. -/
theorem claim_C6_smallest_free_cex :
    (generate_unique_id
        (clearIds (generate_unique_id (generate_unique_id initIdState).2).2)).1 = 2 ∧
    (1 : Int) ∉ (clearIds (generate_unique_id (generate_unique_id initIdState).2).2).used ∧
    (0 : Int) < 1 ∧ (1 : Int) < 2 := by
  refine ⟨by decide, by decide, by decide, by decide⟩

theorem claim_C6_smallest_free_amended (s : IdState) :
    (generate_unique_id s).1 ∉ s.used ∧ s.statId ≤ (generate_unique_id s).1 ∧
    (∀ j : Int, s.statId ≤ j → j < (generate_unique_id s).1 → j ∈ s.used) ∧
    (generate_unique_id s).2.statId = (generate_unique_id s).1 ∧
    (generate_unique_id s).2.used = insert (generate_unique_id s).1 s.used ∧
    (clearIds s).statId = s.statId ∧ (clearIds s).used = ∅ := by
  obtain ⟨h1, h2, h3, h4, h5⟩ := generate_spec s
  exact ⟨h1, h2, h3, h4, h5, rfl, rfl⟩

/-- C6 witness: from state (counter 1, used {1}) the generated id avoids
the used set, and the minimality clause applies at j = 1. -/
theorem claim_C6_smallest_free_amended_witness :
    (generate_unique_id ⟨1, {1}⟩).1 ∉ ({1} : Finset Int) ∧
    (1 : Int) ∈ ({1} : Finset Int) :=
  ⟨(claim_C6_smallest_free_amended ⟨1, {1}⟩).1,
   (claim_C6_smallest_free_amended ⟨1, {1}⟩).2.2.1 1 (by decide) (by decide)⟩

/-- The misnamed helper: `are_equal a 0 tol` is false exactly when `|a|` is
within the tolerance. -/
lemma are_equal_zero_false_iff (a : Rat) :
    are_equal a 0 label_tol = false ↔ ratAbs a ≤ label_tol := by
  simp [are_equal, sub_zero, decide_eq_false_iff_not, not_lt]

/-- The misnamed helper: `are_equal a 0 tol` is true exactly when `|a|`
exceeds the tolerance. -/
lemma are_equal_zero_true_iff (a : Rat) :
    are_equal a 0 label_tol = true ↔ label_tol < ratAbs a := by
  simp [are_equal, sub_zero, decide_eq_true_eq]

/-- `are_equal 0 0` at the default tolerance. -/
lemma are_equal_zz : are_equal 0 0 label_tol = false := by
  norm_num [are_equal, ratAbs, label_tol]

set_option maxRecDepth 8000 in
/-- C10 counterexample: at offsets (0, 5) the directive DOES contain the
`offset` clause although the offsets are not both within 1e-6 of zero, so
the claimed "offset clause iff both offsets near zero" equivalence fails:
the code adds the clause when at least one offset is near zero. -/
theorem claim_C10_label_gating_cex :
    ¬ ((" offset ".data <:+:
        (add_label_cmd 1 2 "L" 12 "black" 0 5 halign_t.center 0 false false 0).data) ↔
      (ratAbs 0 ≤ label_tol ∧ ratAbs 5 ≤ label_tol)) := by
  have h5 : are_equal 5 0 label_tol = true := by norm_num [are_equal, ratAbs, label_tol]
  have hcmd : add_label_cmd 1 2 "L" 12 "black" 0 5 halign_t.center 0 false false 0 =
      "set label \"L\" at 1,2 center rotate by 0 font \", 12\" textcolor rgb \"black\" nopoint offset 0,5" := by
    simp only [add_label_cmd, are_equal_zz, h5]
    rfl
  rw [hcmd]
  intro hiff
  have hin : (" offset ".data <:+:
      ("set label \"L\" at 1,2 center rotate by 0 font \", 12\" textcolor rgb \"black\" nopoint offset 0,5").data) := by
    decide
  have h2 := (hiff.mp hin).2
  norm_num [ratAbs, label_tol] at h2

set_option maxRecDepth 8000 in
/-- C10 amended: because `are_equal(a, b, tol)` returns `|a-b| > tol`, the
emitted label directive contains the `rotate by` clause exactly when the
rotation is within 1e-6 of zero, and contains the `offset` clause exactly
when AT LEAST ONE of the two offsets is within 1e-6 of zero (not both, as
the claim stated). -/
theorem claim_C10_label_gating_amended (rotation ox oy : Rat) :
    ((" rotate by ".data <:+:
        (add_label_cmd 1 2 "L" 12 "black" 0 0 halign_t.center rotation false false 0).data) ↔
      ratAbs rotation ≤ label_tol) ∧
    ((" offset ".data <:+:
        (add_label_cmd 1 2 "L" 12 "black" ox oy halign_t.center 0 false false 0).data) ↔
      (ratAbs ox ≤ label_tol ∨ ratAbs oy ≤ label_tol)) := by
  constructor
  · constructor
    · intro hinf
      by_contra hgt
      push_neg at hgt
      have he : are_equal rotation 0 label_tol = true := (are_equal_zero_true_iff rotation).mpr hgt
      have hcmd : add_label_cmd 1 2 "L" 12 "black" 0 0 halign_t.center rotation false false 0 =
          "set label \"L\" at 1,2 center font \", 12\" textcolor rgb \"black\" nopoint offset 0,0" := by
        simp only [add_label_cmd, are_equal_zz, he]
        rfl
      rw [hcmd] at hinf
      exact absurd hinf (by decide)
    · intro hle
      have he : are_equal rotation 0 label_tol = false := (are_equal_zero_false_iff rotation).mpr hle
      have hsplit : (add_label_cmd 1 2 "L" 12 "black" 0 0 halign_t.center rotation false false 0).data =
          "set label \"L\" at 1,2 center".data ++
            (" rotate by ".data ++ ((fmtD rotation).data ++
              " font \", 12\" textcolor rgb \"black\" nopoint offset 0,0".data)) := by
        simp only [add_label_cmd, are_equal_zz, he, String.data_append, List.append_assoc]
        rfl
      refine ⟨"set label \"L\" at 1,2 center".data,
        (fmtD rotation).data ++ " font \", 12\" textcolor rgb \"black\" nopoint offset 0,0".data, ?_⟩
      rw [hsplit]
      simp [List.append_assoc]
  · constructor
    · intro hinf
      by_contra hgt
      push_neg at hgt
      have h1 : are_equal ox 0 label_tol = true := (are_equal_zero_true_iff ox).mpr hgt.1
      have h2 : are_equal oy 0 label_tol = true := (are_equal_zero_true_iff oy).mpr hgt.2
      have hcmd : add_label_cmd 1 2 "L" 12 "black" ox oy halign_t.center 0 false false 0 =
          "set label \"L\" at 1,2 center rotate by 0 font \", 12\" textcolor rgb \"black\" nopoint" := by
        simp only [add_label_cmd, are_equal_zz, h1, h2]
        rfl
      rw [hcmd] at hinf
      exact absurd hinf (by decide)
    · intro hle
      have hcond : (are_equal ox 0 label_tol = false ∨ are_equal oy 0 label_tol = false) := by
        rcases hle with h | h
        · exact Or.inl ((are_equal_zero_false_iff ox).mpr h)
        · exact Or.inr ((are_equal_zero_false_iff oy).mpr h)
      have hoff : (if are_equal ox 0 label_tol = false ∨ are_equal oy 0 label_tol = false
          then " offset " ++ fmtD ox ++ "," ++ fmtD oy else "") =
            " offset " ++ fmtD ox ++ "," ++ fmtD oy := if_pos hcond
      have hrotz : (if are_equal (0 : Rat) 0 label_tol = false
          then " rotate by " ++ fmtD (0 : Rat) else "") =
            " rotate by " ++ fmtD (0 : Rat) := if_pos are_equal_zz
      have hsplit : (add_label_cmd 1 2 "L" 12 "black" ox oy halign_t.center 0 false false 0).data =
          "set label \"L\" at 1,2 center rotate by 0 font \", 12\" textcolor rgb \"black\" nopoint".data ++
            (" offset ".data ++ ((fmtD ox).data ++ (",".data ++ ((fmtD oy).data ++ ([] : List Char))))) := by
        simp only [add_label_cmd, hrotz, hoff, String.data_append, List.append_assoc]
        rfl
      refine ⟨"set label \"L\" at 1,2 center rotate by 0 font \", 12\" textcolor rgb \"black\" nopoint".data,
        (fmtD ox).data ++ (",".data ++ ((fmtD oy).data ++ ([] : List Char))), ?_⟩
      rw [hsplit]
      simp [List.append_assoc]

end gpcpp
